import Mathlib

/-!
Shallow embedding of the `rocket-validation` adapter (src/src/lib.rs).

The crate wires the external `validator` library into three Rocket guard
traits plus one catcher.  We model the request-scoped storage
(`Request::local_cache` keyed at type `CachedValidationErrors`) as an
explicit `Option CachedValidationErrors` state threaded through each
operation; `local_cache` returns the cached value when present and
otherwise stores the supplied default (first writer wins).  Rocket's
`Outcome` is modelled with the HTTP status as a `Nat`; Rust's `Result`
is `RResult`.  Types that the crate treats as opaque (the wrapped payload
`D`, the inner decode error, the forward payload) are type parameters,
with the decode error's `to_string` rendering passed as a function.
-/

namespace RocketValidation

/-- Model of `rocket::serde::json::Json<T>`: a transparent wrapper whose
inner value is reached by `.0` in the source. -/
structure Json (T : Type) where
  val : T
deriving DecidableEq

/-- `pub struct Validated<T>(pub T);` -/
structure Validated (T : Type) where
  val : T
deriving DecidableEq

/-- `impl<T> Validated<T> { pub fn into_inner(self) -> T { self.0 } }` -/
def Validated.into_inner {T : Type} (v : Validated T) : T :=
  v.val

/-- `impl<T> Validated<Json<T>> { pub fn into_deep_inner(self) -> T { self.0 .0 } }` -/
def Validated.into_deep_inner {T : Type} (v : Validated (Json T)) : T :=
  v.val.val

/-- Model of `validator::ValidationError`: the crate only touches the
`code` (set by `ValidationError::new`) and the `message`
(set by `with_message`); the other fields are never used here. -/
structure ValidationError where
  code : String
  message : Option String
deriving DecidableEq

/-- `ValidationError::new(code)`: message starts out absent. -/
def ValidationError.new (c : String) : ValidationError :=
  ⟨c, none⟩

/-- `err.with_message(msg)`: replaces the message. -/
def ValidationError.with_message (e : ValidationError) (m : String) : ValidationError :=
  ⟨e.code, some m⟩

/-- Model of `validator::ValidationErrors`: a map from field name to the
errors recorded for that field, as an association list (the crate only
needs `new`, `add` and `into_errors`). -/
structure ValidationErrors where
  errors : List (String × List ValidationError)
deriving DecidableEq

/-- `ValidationErrors::new()`: the empty collection. -/
def ValidationErrors.new : ValidationErrors :=
  ⟨[]⟩

/-- `errors.add(field, err)`: append `err` under `field`, creating the
entry when the field is not present yet. -/
def ValidationErrors.add (v : ValidationErrors) (field : String) (e : ValidationError) :
    ValidationErrors :=
  if v.errors.any (fun p => p.fst == field) then
    ⟨v.errors.map (fun p => if p.fst == field then (p.fst, p.snd ++ [e]) else p)⟩
  else
    ⟨v.errors ++ [(field, [e])]⟩

/-- `errors.into_errors()`: the (field, errors) pairs of the collection. -/
def ValidationErrors.into_errors (v : ValidationErrors) :
    List (String × List ValidationError) :=
  v.errors

/-- `pub struct CachedValidationErrors(pub Option<ValidationErrors>);` -/
structure CachedValidationErrors where
  val : Option ValidationErrors
deriving DecidableEq

/-- The request-scoped storage keyed at type `CachedValidationErrors`:
`none` when `local_cache` has never been called for that type during the
request. -/
abbrev Slot := Option CachedValidationErrors

/-- `req.local_cache(|| d)`: returns the already-cached value when one
exists, otherwise stores `d` and returns it — the first writer wins. -/
def local_cache (slot : Slot) (d : CachedValidationErrors) :
    CachedValidationErrors × Slot :=
  match slot with
  | some v => (v, some v)
  | none => (d, some d)

/-- Rust's `Result<A, B>` (`ok` is `Ok`, `err` is `Err`). -/
inductive RResult (A B : Type) where
  | ok : A → RResult A B
  | err : B → RResult A B
deriving DecidableEq

/-- Rocket's `Outcome`: `Success`, `Error((status, e))` with the HTTP
status code as a `Nat`, or `Forward`. -/
inductive Outcome (S E F : Type) where
  | success : S → Outcome S E F
  | error : Nat → E → Outcome S E F
  | forward : F → Outcome S E F
deriving DecidableEq

/-- `Status::UnprocessableEntity`. -/
def unprocessableEntity : Nat := 422

/-- `from_data` of `impl FromData<'r> for Validated<Json<D>>`.
`parser_errors` is the build-time feature flag; `render` is
`err.to_string()` for the inner decode error type; `validate` is the
external `D::validate`; `data_outcome` is the result of the delegated
`<Json<D> as FromData>::from_data`; `slot` is the request-scoped storage
before the call.  Returns the guard outcome and the storage after. -/
def from_data {D E F : Type} (parser_errors : Bool) (render : E → String)
    (validate : D → RResult Unit ValidationErrors)
    (data_outcome : Outcome (Json D) E F) (slot : Slot) :
    Outcome (Validated (Json D)) (RResult ValidationErrors E) F × Slot :=
  match data_outcome with
  | .error status err =>
      let errors := ValidationErrors.new
      let errors :=
        if parser_errors then
          errors.add "Parser" ((ValidationError.new "Error").with_message (render err))
        else
          errors
      let slot := (local_cache slot ⟨some errors⟩).snd
      (.error status (.err err), slot)
  | .forward f => (.forward f, slot)
  | .success data =>
      match validate data.val with
      | .ok _ => (.success ⟨data⟩, slot)
      | .err err =>
          let slot := (local_cache slot ⟨some err⟩).snd
          (.error unprocessableEntity (.ok err), slot)

/-- `from_request` of `impl FromRequest<'r> for Validated<D>`:
`data_outcome` is the result of the delegated `D::from_request`. -/
def from_request {D E F : Type} (validate : D → RResult Unit ValidationErrors)
    (data_outcome : Outcome D E F) (slot : Slot) :
    Outcome (Validated D) (RResult ValidationErrors E) F × Slot :=
  match data_outcome with
  | .error status err => (.error status (.err err), slot)
  | .forward f => (.forward f, slot)
  | .success data =>
      match validate data with
      | .ok _ => (.success ⟨data⟩, slot)
      | .err err =>
          let slot := (local_cache slot ⟨some err⟩).snd
          (.error unprocessableEntity (.ok err), slot)

/-- `form::error::Entity`: only `Value` is produced by this crate. -/
inductive Entity where
  | value
deriving DecidableEq

/-- `form::error::ErrorKind`: the crate only constructs
`Validation(Cow::Borrowed(name))`; every other kind of the framework is
collapsed into the opaque `other` placeholder (the form path only passes
such errors through untouched). -/
inductive ErrorKind where
  | validation : String → ErrorKind
  | other : String → ErrorKind
deriving DecidableEq

/-- `form::Error`: the fields set by this crate (`name`, `kind`,
`value`, `entity`). -/
structure FormError where
  name : Option String
  kind : ErrorKind
  value : Option String
  entity : Entity
deriving DecidableEq

/-- `finalize` of `impl FromForm<'r> for Validated<T>`: `inner` is the
result of the delegated `T::finalize`.  The source function has no access
to the request, hence no request-scoped storage appears here. -/
def finalize {T : Type} (validate : T → RResult Unit ValidationErrors)
    (inner : RResult T (List FormError)) :
    RResult (Validated T) (List FormError) :=
  match inner with
  | .err e => .err e
  | .ok data =>
      match validate data with
      | .ok _ => .ok ⟨data⟩
      | .err err =>
          .err (err.into_errors.map (fun e =>
            FormError.mk (some e.fst) (ErrorKind.validation e.fst) none Entity.value))

/-- The body of `struct Error<'a>` serialized by the catcher
(`code`, `message`, `errors`). -/
structure ErrorBody where
  code : Nat
  message : String
  errors : Option ValidationErrors
deriving DecidableEq

/-- The fixed message string of the catcher. -/
def catcher_message : String :=
  "Unprocessable Entity. The request was well-formed but was unable to be followed due to semantic errors."

/-- `validation_catcher`: reads the request-scoped storage with default
`CachedValidationErrors(None)` and renders the error body.  Returns the
rendered `Json` body and the storage after the call (`local_cache`
stores the default when the slot was empty). -/
def validation_catcher (slot : Slot) : Json ErrorBody × Slot :=
  let r := local_cache slot ⟨none⟩
  (⟨⟨422, catcher_message, r.fst.val⟩⟩, r.snd)

/-- Claim C1: when the inner decode succeeds and `validate` returns `Ok`,
both the body-data guard and the request guard return `Success` wrapping
exactly the decoded value, and the per-request error slot is left
untouched on this path. -/
theorem c1_success_no_slot_write {D E F : Type} (parser_errors : Bool)
    (render : E → String) (validate : D → RResult Unit ValidationErrors)
    (d : D) (slot : Slot) (h : validate d = RResult.ok ()) :
    @from_data D E F parser_errors render validate (Outcome.success (Json.mk d)) slot
      = (Outcome.success (Validated.mk (Json.mk d)), slot) ∧
    @from_request D E F validate (Outcome.success d) slot
      = (Outcome.success (Validated.mk d), slot) := by
  constructor <;> simp [from_data, from_request, h]

/-- Witness for C1 at a concrete input. -/
theorem c1_success_no_slot_write_witness :
    @from_data Nat String Unit true (fun s => s) (fun _ => RResult.ok ())
        (Outcome.success (Json.mk 5)) none
      = (Outcome.success (Validated.mk (Json.mk 5)), none) ∧
    @from_request Nat String Unit (fun _ => RResult.ok ()) (Outcome.success 5) none
      = (Outcome.success (Validated.mk 5), none) :=
  c1_success_no_slot_write true (fun s => s) (fun _ => RResult.ok ()) 5 none rfl

/-- Claim C2: when the decode succeeds but `validate` returns an error
collection `e`, both guards return an `Error` outcome with status 422
carrying `e` as the structured detail, and (on a fresh request) the
per-request slot then holds exactly `e`, which is non-empty and has at
least one entry for every violated field. -/
theorem c2_validation_failure_422 {D E F : Type} (parser_errors : Bool)
    (render : E → String) (validate : D → RResult Unit ValidationErrors)
    (d : D) (e : ValidationErrors)
    (h : validate d = RResult.err e) (hne : e.errors ≠ []) :
    @from_data D E F parser_errors render validate (Outcome.success (Json.mk d)) none
      = (Outcome.error 422 (RResult.ok e), some (CachedValidationErrors.mk (some e))) ∧
    @from_request D E F validate (Outcome.success d) none
      = (Outcome.error 422 (RResult.ok e), some (CachedValidationErrors.mk (some e))) ∧
    e.errors ≠ [] ∧
    (e.errors.map Prod.fst).all
        (fun f => !(e.errors.filter (fun p => p.fst == f)).isEmpty) = true := by
  refine ⟨?_, ?_, hne, ?_⟩
  · simp [from_data, h, local_cache, unprocessableEntity]
  · simp [from_request, h, local_cache, unprocessableEntity]
  · rw [List.all_eq_true]
    intro f hf
    rw [List.mem_map] at hf
    obtain ⟨p, hp, hpf⟩ := hf
    have hmem : p ∈ e.errors.filter (fun q => q.fst == f) :=
      List.mem_filter.mpr ⟨hp, by simp [hpf]⟩
    simpa [List.isEmpty_iff] using List.ne_nil_of_mem hmem

/-- Witness for C2 at a concrete input. -/
theorem c2_validation_failure_422_witness :
    @from_data Nat String Unit true (fun s => s)
        (fun _ => RResult.err (ValidationErrors.mk [("name", [ValidationError.new "length"])]))
        (Outcome.success (Json.mk 0)) none
      = (Outcome.error 422
           (RResult.ok (ValidationErrors.mk [("name", [ValidationError.new "length"])])),
         some (CachedValidationErrors.mk
           (some (ValidationErrors.mk [("name", [ValidationError.new "length"])])))) ∧
    @from_request Nat String Unit
        (fun _ => RResult.err (ValidationErrors.mk [("name", [ValidationError.new "length"])]))
        (Outcome.success 0) none
      = (Outcome.error 422
           (RResult.ok (ValidationErrors.mk [("name", [ValidationError.new "length"])])),
         some (CachedValidationErrors.mk
           (some (ValidationErrors.mk [("name", [ValidationError.new "length"])])))) ∧
    (ValidationErrors.mk [("name", [ValidationError.new "length"])]).errors ≠ [] ∧
    ((ValidationErrors.mk [("name", [ValidationError.new "length"])]).errors.map Prod.fst).all
        (fun f =>
          !((ValidationErrors.mk [("name", [ValidationError.new "length"])]).errors.filter
              (fun p => p.fst == f)).isEmpty) = true :=
  c2_validation_failure_422 true (fun s => s)
    (fun _ => RResult.err (ValidationErrors.mk [("name", [ValidationError.new "length"])]))
    0 (ValidationErrors.mk [("name", [ValidationError.new "length"])]) rfl (by decide)

/-- Claim C3: on a decode failure in the body-data guard (fresh request),
with the `parser_errors` feature the stored collection has exactly one
entry keyed "Parser" whose message is the rendered decode error; without
the feature no synthetic entry is added (the stored collection is empty). -/
theorem c3_parser_entry {D E F : Type} (render : E → String)
    (validate : D → RResult Unit ValidationErrors) (status : Nat) (err : E) :
    (@from_data D E F true render validate (Outcome.error status err) none).snd
      = some (CachedValidationErrors.mk (some (ValidationErrors.mk
          [("Parser", [ValidationError.mk "Error" (some (render err))])]))) ∧
    (@from_data D E F false render validate (Outcome.error status err) none).snd
      = some (CachedValidationErrors.mk (some (ValidationErrors.mk []))) := by
  constructor <;>
    simp [from_data, local_cache, ValidationErrors.new, ValidationErrors.add,
      ValidationError.new, ValidationError.with_message]

/-- Counterexample to claim C4 as stated: with the `parser_errors`
feature enabled, the body-data guard's `Error` outcome on a decode
failure still carries the original decode error (`Err`), not the
validation-error collection (`Ok`). -/
theorem c4_counterexample :
    (@from_data Nat String Unit true (fun s => s) (fun _ => RResult.ok ())
        (Outcome.error 400 "boom") none).fst
      = Outcome.error 400 (RResult.err "boom") ∧
    (@from_data Nat String Unit true (fun s => s) (fun _ => RResult.ok ())
        (Outcome.error 400 "boom") none).fst
      ≠ Outcome.error 400 (RResult.ok (ValidationErrors.mk
          [("Parser", [ValidationError.mk "Error" (some "boom")])])) := by
  constructor
  · rfl
  · decide

/-- Claim C4 amended: on a decode failure the body-data guard's `Error`
outcome propagates the original decode failure's status code and always
carries the original decode error as the structured detail, regardless
of the `parser_errors` feature. -/
theorem c4_amended_decode_error_detail {D E F : Type} (parser_errors : Bool)
    (render : E → String) (validate : D → RResult Unit ValidationErrors)
    (status : Nat) (err : E) (slot : Slot) :
    (@from_data D E F parser_errors render validate (Outcome.error status err) slot).fst
      = Outcome.error status (RResult.err err) := by
  rfl

/-- Claim C5: the slot is write-once: once a value `v` has been stored,
any later body-data guard call, request guard call, or catcher call in
the same request leaves `v` in place, and the catcher renders exactly
`v`'s contents. -/
theorem c5_write_once {D E F D2 E2 F2 : Type} (parser_errors : Bool)
    (render : E → String) (validate : D → RResult Unit ValidationErrors)
    (validate2 : D2 → RResult Unit ValidationErrors)
    (o1 : Outcome (Json D) E F) (o2 : Outcome D2 E2 F2)
    (v : CachedValidationErrors) :
    (from_data parser_errors render validate o1 (some v)).snd = some v ∧
    (from_request validate2 o2 (some v)).snd = some v ∧
    (validation_catcher (some v)).snd = some v ∧
    (validation_catcher (some v)).fst.val.errors = v.val := by
  refine ⟨?_, ?_, rfl, rfl⟩
  · cases o1 with
    | error s e => simp [from_data, local_cache]
    | forward f => rfl
    | success j =>
        cases h : validate j.val with
        | ok u => simp [from_data, h]
        | err e => simp [from_data, h, local_cache]
  · cases o2 with
    | error s e => rfl
    | forward f => rfl
    | success d =>
        cases h : validate2 d with
        | ok u => simp [from_request, h]
        | err e => simp [from_request, h, local_cache]

/-- Claim C6: when the wrapped finalize succeeds but `validate` fails
with collection `e`, the form guard's failure is one form error per
entry of `e`, each carrying the field name as both its `name` and its
`Validation` kind payload and no raw value; when the fields of `e` are
distinct the resulting error names are distinct as well (exactly one
entry per violated field).  The source `finalize` has no access to the
request, so the per-request slot cannot be written on this path. -/
theorem c6_form_errors {T : Type} (validate : T → RResult Unit ValidationErrors)
    (d : T) (e : ValidationErrors) (h : validate d = RResult.err e) :
    finalize validate (RResult.ok d)
      = RResult.err (e.errors.map (fun p =>
          FormError.mk (some p.fst) (ErrorKind.validation p.fst) none Entity.value)) ∧
    ((e.errors.map Prod.fst).Nodup →
      ((e.errors.map (fun p =>
          FormError.mk (some p.fst) (ErrorKind.validation p.fst) none Entity.value)).map
            FormError.name).Nodup) := by
  constructor
  · simp [finalize, h, ValidationErrors.into_errors]
  · intro hnd
    have hmap : (e.errors.map (fun p =>
        FormError.mk (some p.fst) (ErrorKind.validation p.fst) none Entity.value)).map
          FormError.name = (e.errors.map Prod.fst).map some := by
      simp [List.map_map]
    rw [hmap]
    exact hnd.map (Option.some_injective String)

/-- Witness for C6 at a concrete input with two violated fields. -/
theorem c6_form_errors_witness :
    @finalize Nat
        (fun _ => RResult.err (ValidationErrors.mk
          [("name", [ValidationError.new "length"]), ("age", [ValidationError.new "range"])]))
        (RResult.ok 0)
      = RResult.err
          ((ValidationErrors.mk
            [("name", [ValidationError.new "length"]),
             ("age", [ValidationError.new "range"])]).errors.map (fun p =>
            FormError.mk (some p.fst) (ErrorKind.validation p.fst) none Entity.value)) ∧
    (((ValidationErrors.mk
        [("name", [ValidationError.new "length"]),
         ("age", [ValidationError.new "range"])]).errors.map (fun p =>
        FormError.mk (some p.fst) (ErrorKind.validation p.fst) none Entity.value)).map
          FormError.name).Nodup :=
  ⟨(c6_form_errors
      (fun _ => RResult.err (ValidationErrors.mk
        [("name", [ValidationError.new "length"]), ("age", [ValidationError.new "range"])]))
      0
      (ValidationErrors.mk
        [("name", [ValidationError.new "length"]), ("age", [ValidationError.new "range"])])
      rfl).1,
   (c6_form_errors
      (fun _ => RResult.err (ValidationErrors.mk
        [("name", [ValidationError.new "length"]), ("age", [ValidationError.new "range"])]))
      0
      (ValidationErrors.mk
        [("name", [ValidationError.new "length"]), ("age", [ValidationError.new "range"])])
      rfl).2 (by decide)⟩

/-- Claim C7: the catcher reads the slot (defaulting to no error when it
was never written) and renders code 422, the fixed message, and the
stored collection (or none) as the `errors` field. -/
theorem c7_catcher_renders_slot (slot : Slot) :
    (validation_catcher slot).fst.val.code = 422 ∧
    (validation_catcher slot).fst.val.message = catcher_message ∧
    (validation_catcher slot).fst.val.errors
      = (slot.getD (CachedValidationErrors.mk none)).val := by
  cases slot <;> exact ⟨rfl, rfl, rfl⟩

/-- Claim C8: a `Forward` of the inner decoder is passed through
unchanged by both guards, a decode failure is passed through by the
request guard with the inner error preserved (wrapped as the `Err`
variant of the guard's error type), and none of these paths touch the
per-request slot. -/
theorem c8_passthrough {D E F D2 E2 F2 : Type} (parser_errors : Bool)
    (render : E → String) (validate : D → RResult Unit ValidationErrors)
    (validate2 : D2 → RResult Unit ValidationErrors)
    (f : F) (f2 : F2) (status : Nat) (err2 : E2) (slot : Slot) :
    @from_data D E F parser_errors render validate (Outcome.forward f) slot
      = (Outcome.forward f, slot) ∧
    @from_request D2 E2 F2 validate2 (Outcome.forward f2) slot
      = (Outcome.forward f2, slot) ∧
    @from_request D2 E2 F2 validate2 (Outcome.error status err2) slot
      = (Outcome.error status (RResult.err err2), slot) :=
  ⟨rfl, rfl, rfl⟩

/-- Claim C9: `into_inner` and `into_deep_inner` are exact inverses of
construction — they return the wrapped payload unchanged. -/
theorem c9_wrapper_accessors {A B : Type} (x : A) (y : B) :
    (Validated.mk x).into_inner = x ∧
    (Validated.mk (Json.mk y)).into_deep_inner = y :=
  ⟨rfl, rfl⟩

/-- Claim C10: with the `parser_errors` feature disabled, a decode
failure still writes `Some` of an empty collection into the slot, so the
catcher then renders a present (non-`none`) collection with zero field
entries. -/
theorem c10_disabled_flag_writes_empty {D E F : Type} (render : E → String)
    (validate : D → RResult Unit ValidationErrors) (status : Nat) (err : E) :
    (@from_data D E F false render validate (Outcome.error status err) none).snd
      = some (CachedValidationErrors.mk (some (ValidationErrors.mk []))) ∧
    (validation_catcher
        (@from_data D E F false render validate (Outcome.error status err) none).snd).fst.val.errors
      = some (ValidationErrors.mk []) ∧
    (ValidationErrors.mk []).errors.length = 0 :=
  ⟨rfl, rfl, rfl⟩

end RocketValidation
